import Mathlib

set_option maxRecDepth 8192

/-!
Verification development for the `veil_aio_au` repository
(`src/veil_aio_au/veil_au.py`).

The module provides `VeilAuthPam`: a whitelist-restricted asynchronous
process runner for Linux account management helpers, plus a PAM
authentication adapter.  The definitions below are a shallow embedding of
the Python source: pure data is translated directly, the operating-system
behaviour of a spawned child process (exit code, captured output, timeout)
is an explicit `ProcBehavior` parameter, and Python exceptions become an
explicit `Except PyErr` outcome.  Every spawn performed by a run is
recorded in a trace so that whitelist properties can be stated about the
exact command strings handed to `asyncio.create_subprocess_exec`.
-/

/-- Python exceptions raised by the module (veil_au.py raises ValueError,
AssertionError; dereferencing `None.strip()` raises AttributeError). -/
inductive PyErr
  | valueError (msg : String)
  | assertionError (msg : String)
  | attributeError (msg : String)
deriving DecidableEq, Repr

/-- `VeilResult` (veil_au.py lines 66-91): operation result with
`return_code`, `error_msg` (stderr) and `stdout_msg` (stdout).  Fields are
immutable here by construction, matching the spec's value-type reading. -/
structure VeilResult where
  return_code : Int
  error_msg : Option String
  stdout_msg : Option String
deriving DecidableEq, Repr

/-- Python truthiness of an optional string: `None` and the empty string
are falsy, any other string is truthy. -/
def pyTruthy : Option String → Bool
  | none => false
  | some s => s != ""

/-- Python truthiness of an optional integer: `None` and `0` are falsy. -/
def pyTruthyInt : Option Int → Bool
  | none => false
  | some n => n != 0

/-- `VeilResult.success` (line 84): `bool(self.return_code == 0 and not
self.error_msg)`. -/
def VeilResult.success (r : VeilResult) : Bool :=
  r.return_code == 0 && !(pyTruthy r.error_msg)

/-- Configuration of a `VeilAuthPam` instance (lines 136-160).  The six
mandatory command paths are validated non-null strings; the optional
`sudo_cmd`/`kill_cmd` are stored as `None` when falsy
(`OptionalCommandType`, lines 55-63), hence `Option String` here. -/
structure VeilCfg where
  user_add_cmd : String
  group_add_cmd : String
  user_edit_cmd : String
  user_set_pass_cmd : String
  user_check_in_group_cmd : String
  user_remove_group_cmd : String
  sudo_cmd : Option String
  kill_cmd : Option String
  task_timeout : Nat
  validate : Bool
  show_stdout : Bool
deriving Repr

/-- `VeilAuthPam.as_sudo` (lines 162-167): raises `AssertionError` when a
sudo command is configured without a kill command; otherwise reports
whether both are configured. -/
def VeilCfg.as_sudo (c : VeilCfg) : Except PyErr Bool :=
  if c.sudo_cmd.isSome && c.kill_cmd.isNone then
    .error (.assertionError "Define a kill_cmd, otherwise created processes may be not closed.")
  else
    .ok (c.sudo_cmd.isSome && c.kill_cmd.isSome)

/-- `VeilAuthPam.__possible_commands` (lines 169-178): the set of values of
every instance attribute named `__*_CMD`.  The Python set also contains
`None` for an unset sudo/kill slot; a `None` element can never equal a
string command, so only the string members are modelled. -/
def possibleCommands (c : VeilCfg) : List String :=
  [c.user_add_cmd, c.group_add_cmd, c.user_edit_cmd, c.user_set_pass_cmd,
   c.user_check_in_group_cmd, c.user_remove_group_cmd]
  ++ c.sudo_cmd.toList ++ c.kill_cmd.toList

/-- `VeilAuthPam.__validate_command` (lines 180-185): an empty command, or
a command not in `__possible_commands`, raises `ValueError`. -/
def validateCommand (c : VeilCfg) (cmd : String) : Except PyErr Unit :=
  if cmd = "" then .error (.valueError "command should be not empty")
  else if cmd ∈ possibleCommands c then .ok ()
  else .error (.valueError "execution denied")

/-! ### Shell-word tokenizer

`__escape_command_args` (lines 187-193) joins the arguments with a single
space and re-splits the result with `shlex.split`, i.e. CPython's `shlex`
lexer with `posix=True`, `whitespace_split=True` and comments disabled.
`shlexRun` below is that lexer's `read_token` loop specialised to those
settings: whitespace is one of space/tab/CR/LF, the quote characters are
the single and double quote, the escape character is the backslash, and
inside double quotes a backslash escapes only the backslash and the double
quote (`escapedquotes`).  An unterminated quote raises
`ValueError("No closing quotation")`; a trailing escape raises
`ValueError("No escaped character")`. -/

/-- The single-quote character. -/
def squoteChar : Char := Char.ofNat 39

/-- The double-quote character. -/
def dquoteChar : Char := Char.ofNat 34

/-- The backslash character. -/
def bslashChar : Char := Char.ofNat 92

/-- `shlex.whitespace`: space, tab, carriage return, line feed. -/
def shlexWs (c : Char) : Bool :=
  c = ' ' || c = Char.ofNat 9 || c = Char.ofNat 13 || c = Char.ofNat 10

/-- Lexer states of `shlex.read_token`: between tokens, inside a word,
inside single quotes, inside double quotes, after an escape character in a
word, after an escape character inside double quotes. -/
inductive SState
  | sp | wd | sq | dq | escW | escDq
deriving DecidableEq, Repr

/-- One pass of the `shlex` posix whitespace-split lexer over the input.
Arguments: state, the posix `quoted` flag of the current token, the token
accumulated so far, the reversed list of finished tokens, remaining
input. -/
def shlexRun : SState → Bool → String → List String → List Char →
    Except PyErr (List String)
  | .sp, _, _, acc, [] => .ok acc.reverse
  | .sp, q, tok, acc, ch :: rest =>
    if shlexWs ch then shlexRun .sp false "" acc rest
    else if ch = bslashChar then shlexRun .escW q tok acc rest
    else if ch = squoteChar then shlexRun .sq q tok acc rest
    else if ch = dquoteChar then shlexRun .dq q tok acc rest
    else shlexRun .wd q (tok.push ch) acc rest
  | .wd, _, tok, acc, [] => .ok (acc.reverse ++ [tok])
  | .wd, q, tok, acc, ch :: rest =>
    if shlexWs ch then shlexRun .sp false "" (tok :: acc) rest
    else if ch = bslashChar then shlexRun .escW q tok acc rest
    else if ch = squoteChar then shlexRun .sq q tok acc rest
    else if ch = dquoteChar then shlexRun .dq q tok acc rest
    else shlexRun .wd q (tok.push ch) acc rest
  | .sq, _, _, _, [] => .error (.valueError "No closing quotation")
  | .sq, _, tok, acc, ch :: rest =>
    if ch = squoteChar then shlexRun .wd true tok acc rest
    else shlexRun .sq true (tok.push ch) acc rest
  | .dq, _, _, _, [] => .error (.valueError "No closing quotation")
  | .dq, _, tok, acc, ch :: rest =>
    if ch = dquoteChar then shlexRun .wd true tok acc rest
    else if ch = bslashChar then shlexRun .escDq true tok acc rest
    else shlexRun .dq true (tok.push ch) acc rest
  | .escW, _, _, _, [] => .error (.valueError "No escaped character")
  | .escW, q, tok, acc, ch :: rest => shlexRun .wd q (tok.push ch) acc rest
  | .escDq, _, _, _, [] => .error (.valueError "No escaped character")
  | .escDq, q, tok, acc, ch :: rest =>
    if ch = bslashChar || ch = dquoteChar then
      shlexRun .dq q (tok.push ch) acc rest
    else shlexRun .dq q ((tok.push bslashChar).push ch) acc rest

/-- `shlex.split` in posix whitespace-split mode. -/
def shlexSplit (s : String) : Except PyErr (List String) :=
  shlexRun .sp false "" [] s.data

/-- `VeilAuthPam.__escape_command_args` (lines 187-193): raises
`ValueError` on an empty argument list, otherwise returns
`shlex.split(' '.join(cmd_args))`. -/
def escapeCommandArgs (cmdArgs : List String) : Except PyErr (List String) :=
  if cmdArgs = [] then .error (.valueError "cmd_args should be not empty")
  else shlexSplit (String.intercalate " " cmdArgs)

deriving instance DecidableEq for Except

example : escapeCommandArgs ["-u", "bob"] = .ok ["-u", "bob"] := by decide
example : escapeCommandArgs ["user; /bin/rm -rf /home"] =
    .ok ["user;", "/bin/rm", "-rf", "/home"] := by decide

/-! ### The process runner -/

/-- Observable behaviour of one spawned child process: either it finishes
within the task timeout with an exit code and the data it wrote to the
stdout and stderr pipes, or `asyncio.wait_for` times out.  On timeout the
direct kill (non-escalated case) or the spawned kill helper (escalated
case) is modelled as completing within its grace period, which is the
normal effect of SIGKILL. -/
inductive ProcBehavior
  | completed (returnCode : Int) (stdoutData stderrData : String)
  | timeout (pid : Nat)
deriving DecidableEq, Repr

/-- One call of `asyncio.create_subprocess_exec`: the program string and
its argv tail. -/
structure SpawnRecord where
  cmd : String
  args : List String
deriving DecidableEq, Repr

/-- A run of `__run_cmd`: every process spawn it performed, in order, and
either the Python exception it raised or the `VeilResult` it returned. -/
structure RunTrace where
  spawns : List SpawnRecord
  outcome : Except PyErr VeilResult
deriving DecidableEq, Repr

/-- Lines 210-211: `if as_sudo is None: as_sudo = self.as_sudo` (the
property access may raise). -/
def resolveAsSudo (c : VeilCfg) (asSudoArg : Option Bool) : Except PyErr Bool :=
  match asSudoArg with
  | none => c.as_sudo
  | some b => .ok b

/-- Lines 212-213: `if as_sudo and not self.as_sudo: raise ValueError`.
The `and` short-circuits, so `self.as_sudo` (which may itself raise) is
only evaluated when escalation was requested. -/
def checkEscalation (c : VeilCfg) (asSudo : Bool) : Except PyErr Unit :=
  if asSudo then
    match c.as_sudo with
    | .error e => .error e
    | .ok true => .ok ()
    | .ok false => .error (.valueError "Run as sudo activated, but sudo commands are empty.")
  else .ok ()

/-- Lines 217-220: when validation is enabled, check the command against
the whitelist and re-tokenize the arguments; otherwise pass the arguments
through unchanged. -/
def prepArgs (c : VeilCfg) (cmd : String) (cmdArgs : List String) :
    Except PyErr (List String) :=
  if c.validate then
    match validateCommand c cmd with
    | .error e => .error e
    | .ok _ => escapeCommandArgs cmdArgs
  else .ok cmdArgs

/-- `VeilAuthPam.__run_cmd` (lines 195-252).  Stage by stage:
escalation-flag resolution (may raise), escalation availability check (may
raise), stdout-flag resolution, validation and argument escaping (may
raise), the sudo rewrite (the original command becomes the first argument
of the sudo binary), the spawn, and result normalization.  On completion,
stdout survives only when it was captured (`show_stdout`) and non-empty,
stderr only when non-empty, and an exit code of 0 with non-empty stderr is
overridden to 1.  On timeout the result is `(1, None, None)`; in the
escalated case a second process — the sudo binary running the kill command
on the child's pid (lines 239-244) — is spawned and awaited. -/
def runCmd (c : VeilCfg) (cmd : String) (cmdArgs : List String)
    (showStdoutArg asSudoArg : Option Bool) (pb : ProcBehavior) : RunTrace :=
  match resolveAsSudo c asSudoArg with
  | .error e => ⟨[], .error e⟩
  | .ok asSudo =>
    match checkEscalation c asSudo with
    | .error e => ⟨[], .error e⟩
    | .ok _ =>
      let showStdout := showStdoutArg.getD c.show_stdout
      match prepArgs c cmd cmdArgs with
      | .error e => ⟨[], .error e⟩
      | .ok args1 =>
        let cmd1 := if asSudo then c.sudo_cmd.getD "" else cmd
        let args2 := if asSudo then cmd :: args1 else args1
        match pb with
        | .completed rc outData errData =>
          let errOpt : Option String := if errData = "" then none else some errData
          let outOpt : Option String :=
            if showStdout && outData != "" then some outData else none
          let rc1 : Int := if rc = 0 ∧ errData ≠ "" then 1 else rc
          ⟨[⟨cmd1, args2⟩], .ok ⟨rc1, errOpt, outOpt⟩⟩
        | .timeout pid =>
          let kills : List SpawnRecord :=
            if asSudo then [⟨cmd1, [c.kill_cmd.getD "", toString pid]⟩] else []
          ⟨⟨cmd1, args2⟩ :: kills, .ok ⟨1, none, none⟩⟩

/-! ### Public operations -/

/-- The recurring Python pattern `if value and isinstance(value, str):
cmd_args.append(flag + value)`: the flag string is appended exactly when
the optional value is truthy (a non-empty string). -/
def optStrPart (flag : String) : Option String → List String
  | some s => if s != "" then [flag ++ s] else []
  | none => []

/-- The analogous pattern for an optional integer: appended exactly when
the value is truthy (non-zero). -/
def optIntPart (flag : String) : Option Int → List String
  | some n => if n != 0 then [flag ++ toString n] else []
  | none => []

/-- `VeilAuthPam.user_create` (lines 300-323): argv is `['-u', username]`
plus `'-g ' + group` and `'-G ' + gecos` when those are truthy strings. -/
def userCreate (c : VeilCfg) (username : String) (group gecos : Option String)
    (showStdoutArg asSudoArg : Option Bool) (pb : ProcBehavior) : RunTrace :=
  let cmdArgs := ["-u", username] ++ optStrPart "-g " group ++ optStrPart "-G " gecos
  runCmd c c.user_add_cmd cmdArgs showStdoutArg asSudoArg pb

/-- `VeilAuthPam.user_set_password` (lines 325-340). -/
def userSetPassword (c : VeilCfg) (username newPassword : String)
    (showStdoutArg asSudoArg : Option Bool) (pb : ProcBehavior) : RunTrace :=
  runCmd c c.user_set_pass_cmd ["-u", username, "-p", newPassword]
    showStdoutArg asSudoArg pb

/-- `VeilAuthPam.user_create_new` (lines 342-376): create the user, and if
that succeeded set the password; a password failure after a successful
create is reported with the sentinel return code 969 and the password
step's stderr. -/
def userCreateNew (c : VeilCfg) (username password : String)
    (group gecos : Option String) (showStdoutArg asSudoArg : Option Bool)
    (pbCreate pbPassword : ProcBehavior) : RunTrace :=
  let t1 := userCreate c username group gecos showStdoutArg asSudoArg pbCreate
  match t1.outcome with
  | .error e => ⟨t1.spawns, .error e⟩
  | .ok userResult =>
    if !userResult.success then ⟨t1.spawns, .ok userResult⟩
    else
      let t2 := userSetPassword c username password showStdoutArg asSudoArg pbPassword
      match t2.outcome with
      | .error e => ⟨t1.spawns ++ t2.spawns, .error e⟩
      | .ok passwordResult =>
        if !passwordResult.success then
          ⟨t1.spawns ++ t2.spawns, .ok ⟨969, passwordResult.error_msg, none⟩⟩
        else ⟨t1.spawns ++ t2.spawns, .ok ⟨0, none, none⟩⟩

/-- Argument construction of `VeilAuthPam._user_edit` (lines 277-291).
Each optional attribute contributes its flag (as a single
`'flag value'` string, later re-split by the escaper) exactly when it is
truthy in Python: a non-empty string, `True`, or a non-zero integer. -/
def userEditArgs (username : String) (group_add : Option String)
    (lock unlock : Bool) (gecos expire_date : Option String)
    (inactive_period : Option Int) : List String :=
  ["-u", username]
  ++ optStrPart "-a " group_add
  ++ (if lock then ["-L"] else [])
  ++ (if unlock then ["-U"] else [])
  ++ optStrPart "-c " gecos
  ++ optStrPart "-e " expire_date
  ++ optIntPart "-f " inactive_period

/-- `VeilAuthPam._user_edit` (lines 254-298): builds the argument list and
raises `ValueError('No new arguments.')` before any spawn when nothing
beyond `['-u', username]` was added. -/
def userEdit (c : VeilCfg) (username : String) (group_add : Option String)
    (lock unlock : Bool) (gecos expire_date : Option String)
    (inactive_period : Option Int) (showStdoutArg asSudoArg : Option Bool)
    (pb : ProcBehavior) : RunTrace :=
  let cmdArgs := userEditArgs username group_add lock unlock gecos expire_date inactive_period
  if cmdArgs.length ≤ 2 then ⟨[], .error (.valueError "No new arguments.")⟩
  else runCmd c c.user_edit_cmd cmdArgs showStdoutArg asSudoArg pb

/-- `VeilAuthPam.user_remove_group` (lines 414-422). -/
def userRemoveGroup (c : VeilCfg) (username group : String)
    (showStdoutArg asSudoArg : Option Bool) (pb : ProcBehavior) : RunTrace :=
  runCmd c c.user_remove_group_cmd ["-u", username, "-g", group]
    showStdoutArg asSudoArg pb

/-- `VeilAuthPam.group_create` (lines 436-444). -/
def groupCreate (c : VeilCfg) (group : String)
    (showStdoutArg asSudoArg : Option Bool) (pb : ProcBehavior) : RunTrace :=
  runCmd c c.group_add_cmd ["-g", group] showStdoutArg asSudoArg pb

/-- Python `str` whitespace for `strip()`: space, tab, LF, CR, VT, FF. -/
def pyWs (c : Char) : Bool :=
  c = ' ' || c = Char.ofNat 9 || c = Char.ofNat 10 || c = Char.ofNat 13 ||
  c = Char.ofNat 11 || c = Char.ofNat 12

/-- Drop leading whitespace characters. -/
def dropLeadingWs : List Char → List Char
  | [] => []
  | c :: cs => if pyWs c then dropLeadingWs cs else c :: cs

/-- Python `str.strip()`: the string with leading and trailing whitespace
removed. -/
def pyStrip (s : String) : String :=
  ⟨(dropLeadingWs ((dropLeadingWs s.data).reverse)).reverse⟩

/-- A run of `user_in_group`: the spawns performed and either the raised
exception or the returned boolean. -/
structure BoolTrace where
  spawns : List SpawnRecord
  outcome : Except PyErr Bool
deriving DecidableEq, Repr

/-- `VeilAuthPam.user_in_group` (lines 424-434): runs the check command
with stdout capture forced on, returns `False` when the run was not a
success, and otherwise tests `check_result.stdout_msg.strip() != '0'`;
when the stored stdout is `None` (a successful run with empty captured
stdout) that attribute access raises `AttributeError`. -/
def userInGroup (c : VeilCfg) (username group : String)
    (asSudoArg : Option Bool) (pb : ProcBehavior) : BoolTrace :=
  let t := runCmd c c.user_check_in_group_cmd ["-u", username, "-g", group]
    (some true) asSudoArg pb
  match t.outcome with
  | .error e => ⟨t.spawns, .error e⟩
  | .ok r =>
    if r.success then
      match r.stdout_msg with
      | none => ⟨t.spawns, .error (.attributeError "NoneType object has no attribute strip")⟩
      | some s => ⟨t.spawns, .ok (pyStrip s != "0")⟩
    else ⟨t.spawns, .ok false⟩

/-! ### The authentication adapter -/

/-- Modelled from the spec: the credential oracle (the `pam` module) is an
external collaborator that is not part of this repository's sources.  Its
observable state is the pair of the numeric status code and the textual
reason carried by the `pam.pam()` object; `python-pam` documents the
initial values `code = 0` and `reason = None` before `authenticate`
completes. -/
structure PamState where
  code : Int
  reason : Option String
deriving DecidableEq, Repr

/-- Behaviour of one oracle call: either `authenticate` returns a boolean
before the task timeout, leaving the oracle in a final state, or
`asyncio.wait_for` times out while the oracle object still shows some
in-flight state. -/
inductive PamBehavior
  | completes (result : Bool) (final : PamState)
  | timesOut (inflight : PamState)
deriving DecidableEq, Repr

/-- The oracle state visible after the await. -/
def pamObserved : PamBehavior → PamState
  | .completes _ f => f
  | .timesOut s => s

/-- `VeilAuthPam.user_authenticate` (lines 446-464): on timeout the
boolean `result` is forced to `False`; the reason is routed to stdout on
success and to stderr on failure, and the return code is whatever the
oracle object's `code` attribute holds after the await. -/
def userAuthenticate (pb : PamBehavior) : VeilResult :=
  let result := match pb with
    | .completes r _ => r
    | .timesOut _ => false
  let st := pamObserved pb
  ⟨st.code, if result then none else st.reason, if result then st.reason else none⟩

/-! ### Concrete instances used by witnesses and counterexamples -/

/-- A fully configured instance with validation on and both escalation
commands registered. -/
def cfgEx : VeilCfg :=
  { user_add_cmd := "/usr/sbin/adduser"
    group_add_cmd := "/usr/sbin/addgroup"
    user_edit_cmd := "/usr/sbin/usermod"
    user_set_pass_cmd := "/usr/sbin/chpasswd"
    user_check_in_group_cmd := "/usr/local/bin/checkgroup"
    user_remove_group_cmd := "/usr/bin/gpasswd"
    sudo_cmd := some "/usr/bin/sudo"
    kill_cmd := some "/bin/kill"
    task_timeout := 5
    validate := true
    show_stdout := false }

/-- `cfgEx` with a sudo command but no kill command. -/
def cfgSudoOnly : VeilCfg := { cfgEx with kill_cmd := none }

/-- `cfgEx` with a kill command but no sudo command. -/
def cfgKillOnly : VeilCfg := { cfgEx with sudo_cmd := none }

/-! ### Helper lemmas about the runner -/

/-- Escalation is reported available exactly when both optional commands
are configured. -/
theorem as_sudo_ok_true_iff (c : VeilCfg) :
    c.as_sudo = .ok true ↔ c.sudo_cmd.isSome = true ∧ c.kill_cmd.isSome = true := by
  unfold VeilCfg.as_sudo
  cases c.sudo_cmd <;> cases c.kill_cmd <;> simp

/-- A passed escalation check means the `as_sudo` property evaluated to
`True`. -/
theorem checkEscalation_true_ok (c : VeilCfg) (u : Unit)
    (h : checkEscalation c true = .ok u) : c.as_sudo = .ok true := by
  unfold checkEscalation at h
  cases hs : c.as_sudo with
  | error e => rw [hs] at h; simp at h
  | ok b => cases b with
    | true => rfl
    | false => rw [hs] at h; simp at h

/-- When escalation is active, the sudo command is configured and is a
registered command. -/
theorem sudo_registered_of_as_sudo (c : VeilCfg) (h : c.as_sudo = .ok true) :
    c.sudo_cmd = some (c.sudo_cmd.getD "") ∧ c.sudo_cmd.getD "" ∈ possibleCommands c := by
  obtain ⟨hs, _⟩ := (as_sudo_ok_true_iff c).mp h
  obtain ⟨s, hsome⟩ := Option.isSome_iff_exists.mp hs
  refine ⟨by rw [hsome]; rfl, ?_⟩
  simp [possibleCommands, hsome]

/-- A command accepted by `__validate_command` is registered. -/
theorem validateCommand_ok_mem (c : VeilCfg) (cmd : String) (u : Unit)
    (h : validateCommand c cmd = .ok u) : cmd ∈ possibleCommands c := by
  unfold validateCommand at h
  split at h
  · simp at h
  · split at h
    · assumption
    · simp at h

/-- With validation enabled, surviving the preparation phase means the
command is registered. -/
theorem prepArgs_ok_mem (c : VeilCfg) (cmd : String) (cmdArgs args1 : List String)
    (hv : c.validate = true) (h : prepArgs c cmd cmdArgs = .ok args1) :
    cmd ∈ possibleCommands c := by
  unfold prepArgs at h
  rw [hv] at h
  simp only [if_true] at h
  cases hvc : validateCommand c cmd with
  | error e => rw [hvc] at h; simp at h
  | ok u => exact validateCommand_ok_mem c cmd u hvc

/-- Every spawn performed by `__run_cmd` uses either the command it was
called with or the configured sudo command. -/
theorem runCmd_spawn_cmd (c : VeilCfg) (cmd : String) (cmdArgs : List String)
    (so asA : Option Bool) (pb : ProcBehavior) :
    ∀ sr ∈ (runCmd c cmd cmdArgs so asA pb).spawns,
      sr.cmd = cmd ∨ c.sudo_cmd = some sr.cmd := by
  intro sr hsr
  unfold runCmd at hsr
  split at hsr
  · simp at hsr
  next asSudo hra =>
    split at hsr
    · simp at hsr
    next u hce =>
      split at hsr
      · simp at hsr
      next args1 hpa =>
        have hcmd1 : asSudo = false ∨ (asSudo = true ∧ c.sudo_cmd = some (c.sudo_cmd.getD "")) := by
          cases asSudo with
          | false => exact Or.inl rfl
          | true =>
            exact Or.inr ⟨rfl, (sudo_registered_of_as_sudo c (checkEscalation_true_ok c u hce)).1⟩
        cases pb with
        | completed rc outD errD =>
          simp only [List.mem_singleton] at hsr
          subst hsr
          rcases hcmd1 with h0 | ⟨h1, hsome⟩
          · subst h0; simp
          · subst h1; exact Or.inr (by simpa using hsome)
        | timeout pid =>
          rcases hcmd1 with h0 | ⟨h1, hsome⟩
          · subst h0
            simp only [Bool.false_eq_true, if_false, List.mem_cons,
              List.not_mem_nil, or_false] at hsr
            subst hsr; simp
          · subst h1
            simp only [List.mem_cons, List.mem_singleton, List.not_mem_nil,
              or_false, if_true] at hsr
            rcases hsr with h | h
            · rw [h]; exact Or.inr (by simpa using hsome)
            · rw [h]; exact Or.inr (by simpa using hsome)

/-- If the command handed to `__run_cmd` is registered, every spawned
command is registered. -/
theorem runCmd_spawns_registered (c : VeilCfg) (cmd : String) (cmdArgs : List String)
    (so asA : Option Bool) (pb : ProcBehavior) (hc : cmd ∈ possibleCommands c) :
    ∀ sr ∈ (runCmd c cmd cmdArgs so asA pb).spawns, sr.cmd ∈ possibleCommands c := by
  intro sr hsr
  rcases runCmd_spawn_cmd c cmd cmdArgs so asA pb sr hsr with h | h
  · rw [h]; exact hc
  · simp [possibleCommands, h]

/-- With validation enabled, a non-registered command makes `__run_cmd`
raise without spawning anything. -/
theorem runCmd_denied (c : VeilCfg) (cmd : String) (cmdArgs : List String)
    (so asA : Option Bool) (pb : ProcBehavior)
    (hv : c.validate = true) (hm : cmd ∉ possibleCommands c) :
    (runCmd c cmd cmdArgs so asA pb).spawns = [] ∧
    ∃ e, (runCmd c cmd cmdArgs so asA pb).outcome = .error e := by
  unfold runCmd
  split
  next e hra => exact ⟨rfl, e, rfl⟩
  next asSudo hra =>
    split
    next e hce => exact ⟨rfl, e, rfl⟩
    next u hce =>
      split
      next e hpa => exact ⟨rfl, e, rfl⟩
      next args1 hpa => exact absurd (prepArgs_ok_mem c cmd cmdArgs args1 hv hpa) hm

/-- A run either raises before spawning anything, or spawns at least one
process and returns a result. -/
theorem runCmd_shape (c : VeilCfg) (cmd : String) (cmdArgs : List String)
    (so asA : Option Bool) (pb : ProcBehavior) :
    (∃ e, runCmd c cmd cmdArgs so asA pb = ⟨[], .error e⟩) ∨
    (∃ sr kills r, runCmd c cmd cmdArgs so asA pb = ⟨sr :: kills, .ok r⟩) := by
  unfold runCmd
  split
  · exact Or.inl ⟨_, rfl⟩
  · split
    · exact Or.inl ⟨_, rfl⟩
    · split
      · exact Or.inl ⟨_, rfl⟩
      · cases pb
        · exact Or.inr ⟨_, _, _, rfl⟩
        · exact Or.inr ⟨_, _, _, rfl⟩

/-- `__run_cmd` raises only before the spawn: an exceptional outcome comes
with an empty spawn trace. -/
theorem runCmd_error_no_spawn (c : VeilCfg) (cmd : String) (cmdArgs : List String)
    (so asA : Option Bool) (pb : ProcBehavior) (e : PyErr)
    (h : (runCmd c cmd cmdArgs so asA pb).outcome = .error e) :
    (runCmd c cmd cmdArgs so asA pb).spawns = [] := by
  rcases runCmd_shape c cmd cmdArgs so asA pb with ⟨e1, heq⟩ | ⟨sr, kills, r, heq⟩
  · rw [heq]
  · rw [heq] at h; simp at h

/-- Normalization of a completed child process: stderr survives only when
non-empty, stdout only when captured and non-empty, and an exit code of 0
with non-empty stderr becomes 1. -/
theorem runCmd_completed_ok (c : VeilCfg) (cmd : String) (cmdArgs : List String)
    (so asA : Option Bool) (rc : Int) (outD errD : String) (r : VeilResult)
    (h : (runCmd c cmd cmdArgs so asA (.completed rc outD errD)).outcome = .ok r) :
    r = ⟨if rc = 0 ∧ errD ≠ "" then 1 else rc,
         if errD = "" then none else some errD,
         if (so.getD c.show_stdout) && outD != "" then some outD else none⟩ := by
  unfold runCmd at h
  split at h
  · simp at h
  next asSudo hra =>
    split at h
    · simp at h
    next u hce =>
      split at h
      · simp at h
      next args1 hpa =>
        simp only [Except.ok.injEq] at h
        exact h.symm

/-- Normalization of a timed-out child process: the result is always
`(1, None, None)`. -/
theorem runCmd_timeout_ok (c : VeilCfg) (cmd : String) (cmdArgs : List String)
    (so asA : Option Bool) (pid : Nat) (r : VeilResult)
    (h : (runCmd c cmd cmdArgs so asA (.timeout pid)).outcome = .ok r) :
    r = ⟨1, none, none⟩ := by
  unfold runCmd at h
  split at h
  · simp at h
  next asSudo hra =>
    split at h
    · simp at h
    next u hce =>
      split at h
      · simp at h
      next args1 hpa =>
        simp only [Except.ok.injEq] at h
        exact h.symm

/-- `user_in_group` spawns exactly what its underlying check run spawns. -/
theorem userInGroup_spawns (c : VeilCfg) (u g : String) (asA : Option Bool)
    (pb : ProcBehavior) :
    (userInGroup c u g asA pb).spawns =
      (runCmd c c.user_check_in_group_cmd ["-u", u, "-g", g] (some true) asA pb).spawns := by
  unfold userInGroup
  dsimp only
  split
  · rfl
  · split
    · split <;> rfl
    · rfl

/-! ### The claims -/

/-- C1: only pre-registered executables ever run.  With validation enabled
(the default), a command outside `__possible_commands` makes `__run_cmd`
raise `ValueError` (or the escalation checks raise first) with no process
spawned; and every public operation — `user_create`, `user_set_password`,
`_user_edit`, `user_remove_group`, `user_in_group`, `group_create` — only
ever spawns commands from `__possible_commands`, the escalated rewrite
included, whatever the configuration. -/
theorem only_registered_commands_run (c : VeilCfg)
    (cmd username password group : String) (groupOpt gecosOpt : Option String)
    (ga : Option String) (l ul : Bool) (ge ed : Option String) (ip : Option Int)
    (cmdArgs : List String) (so asA : Option Bool) (pb : ProcBehavior) :
    (c.validate = true → cmd ∉ possibleCommands c →
      (runCmd c cmd cmdArgs so asA pb).spawns = [] ∧
      ∃ e, (runCmd c cmd cmdArgs so asA pb).outcome = .error e)
    ∧ (∀ sr ∈ (userCreate c username groupOpt gecosOpt so asA pb).spawns,
        sr.cmd ∈ possibleCommands c)
    ∧ (∀ sr ∈ (userSetPassword c username password so asA pb).spawns,
        sr.cmd ∈ possibleCommands c)
    ∧ (∀ sr ∈ (userEdit c username ga l ul ge ed ip so asA pb).spawns,
        sr.cmd ∈ possibleCommands c)
    ∧ (∀ sr ∈ (userRemoveGroup c username group so asA pb).spawns,
        sr.cmd ∈ possibleCommands c)
    ∧ (∀ sr ∈ (userInGroup c username group asA pb).spawns,
        sr.cmd ∈ possibleCommands c)
    ∧ (∀ sr ∈ (groupCreate c group so asA pb).spawns,
        sr.cmd ∈ possibleCommands c) := by
  refine ⟨fun hv hm => runCmd_denied c cmd cmdArgs so asA pb hv hm, ?_, ?_, ?_, ?_, ?_, ?_⟩
  · exact runCmd_spawns_registered c c.user_add_cmd _ so asA pb (by simp [possibleCommands])
  · exact runCmd_spawns_registered c c.user_set_pass_cmd _ so asA pb (by simp [possibleCommands])
  · unfold userEdit
    dsimp only
    split
    · intro sr hsr; simp at hsr
    · exact runCmd_spawns_registered c c.user_edit_cmd _ so asA pb (by simp [possibleCommands])
  · exact runCmd_spawns_registered c c.user_remove_group_cmd _ so asA pb
      (by simp [possibleCommands])
  · intro sr hsr
    rw [userInGroup_spawns] at hsr
    exact runCmd_spawns_registered c c.user_check_in_group_cmd _ (some true) asA pb
      (by simp [possibleCommands]) sr hsr
  · exact runCmd_spawns_registered c c.group_add_cmd _ so asA pb (by simp [possibleCommands])

/-- Witness for C1 at concrete inputs: a non-registered command is
rejected with no spawn, and the concrete spawn of a `user_create` run is a
registered command. -/
theorem only_registered_commands_run_witness :
    ((runCmd cfgEx "/evil" ["-u", "bob"] none (some false) (.completed 0 "" "")).spawns = [] ∧
      ∃ e, (runCmd cfgEx "/evil" ["-u", "bob"] none (some false)
        (.completed 0 "" "")).outcome = .error e) ∧
    SpawnRecord.cmd ⟨"/usr/sbin/adduser", ["-u", "bob"]⟩ ∈ possibleCommands cfgEx := by
  constructor
  · exact (only_registered_commands_run cfgEx "/evil" "bob" "pw" "wheel" none none none
      false false none none none ["-u", "bob"] none (some false)
      (.completed 0 "" "")).1 rfl (by decide)
  · exact (only_registered_commands_run cfgEx "/evil" "bob" "pw" "wheel" none none none
      false false none none none ["-u", "bob"] none (some false)
      (.completed 0 "" "")).2.1 ⟨"/usr/sbin/adduser", ["-u", "bob"]⟩ (by decide)


/-- C2 counterexample: with only the kill command configured (and no sudo
command), neither construction nor activation fails — `as_sudo` evaluates
to `False` with no error, and a command then runs unescalated without any
error being raised. -/
theorem escalation_kill_only_no_error :
    cfgKillOnly.sudo_cmd = none ∧
    cfgKillOnly.kill_cmd = some "/bin/kill" ∧
    cfgKillOnly.as_sudo = .ok false ∧
    (runCmd cfgKillOnly cfgKillOnly.user_add_cmd ["-u", "bob"] none none
        (.completed 0 "" "")).spawns = [⟨"/usr/sbin/adduser", ["-u", "bob"]⟩] ∧
    (runCmd cfgKillOnly cfgKillOnly.user_add_cmd ["-u", "bob"] none none
        (.completed 0 "" "")).outcome = .ok ⟨0, none, none⟩ := by
  refine ⟨rfl, rfl, by decide, by decide, by decide⟩

/-- C2 amended: escalation is enabled iff both sudo and kill commands are
configured; configuring sudo without kill makes activation (the `as_sudo`
property) raise `AssertionError`; configuring kill without sudo merely
leaves escalation off with no error; and every call that explicitly
requests escalation while it is not enabled raises before any process is
spawned. -/
theorem escalation_gating (c : VeilCfg) (cmd : String) (cmdArgs : List String)
    (so : Option Bool) (pb : ProcBehavior) :
    (c.as_sudo = .ok true ↔ c.sudo_cmd.isSome = true ∧ c.kill_cmd.isSome = true)
    ∧ (c.sudo_cmd.isSome = true → c.kill_cmd = none →
        ∃ m, c.as_sudo = .error (.assertionError m))
    ∧ (c.as_sudo ≠ .ok true →
        (runCmd c cmd cmdArgs so (some true) pb).spawns = [] ∧
        ∃ e, (runCmd c cmd cmdArgs so (some true) pb).outcome = .error e) := by
  refine ⟨as_sudo_ok_true_iff c, ?_, ?_⟩
  · intro hs hk
    refine ⟨"Define a kill_cmd, otherwise created processes may be not closed.", ?_⟩
    unfold VeilCfg.as_sudo
    rw [hk]
    simp [hs]
  · intro hne
    unfold runCmd
    have hra : resolveAsSudo c (some true) = .ok true := rfl
    split
    next e heq => exact ⟨rfl, e, rfl⟩
    next b heq =>
      have hb : b = true := by rw [hra] at heq; exact (Except.ok.inj heq).symm
      subst hb
      split
      next e heq2 => exact ⟨rfl, e, rfl⟩
      next u heq2 => exact absurd (checkEscalation_true_ok c u heq2) hne

/-- Witness for C2's amended theorem: with sudo configured but kill
absent, activation raises `AssertionError`, and an explicit escalation
request fails with no spawn. -/
theorem escalation_gating_witness :
    (∃ m, cfgSudoOnly.as_sudo = .error (.assertionError m)) ∧
    (runCmd cfgSudoOnly cfgSudoOnly.user_add_cmd ["-u", "bob"] none (some true)
        (.completed 0 "" "")).spawns = [] ∧
    ∃ e, (runCmd cfgSudoOnly cfgSudoOnly.user_add_cmd ["-u", "bob"] none (some true)
        (.completed 0 "" "")).outcome = .error e := by
  constructor
  · exact (escalation_gating cfgSudoOnly cfgSudoOnly.user_add_cmd ["-u", "bob"] none
      (.completed 0 "" "")).2.1 (by decide) rfl
  · exact (escalation_gating cfgSudoOnly cfgSudoOnly.user_add_cmd ["-u", "bob"] none
      (.completed 0 "" "")).2.2 (by decide)

/-- C3: a child process that exits with code 0 but wrote to stderr is
reported with return code 1 and that stderr text, hence as a failure. -/
theorem stderr_overrides_success (c : VeilCfg) (cmd : String) (cmdArgs : List String)
    (so asA : Option Bool) (outD errD : String) (r : VeilResult)
    (hne : errD ≠ "")
    (hok : (runCmd c cmd cmdArgs so asA (.completed 0 outD errD)).outcome = .ok r) :
    r.return_code = 1 ∧ r.error_msg = some errD ∧ r.success = false := by
  have h := runCmd_completed_ok c cmd cmdArgs so asA 0 outD errD r hok
  subst h
  refine ⟨by simp [hne], by simp [hne], ?_⟩
  simp [VeilResult.success, hne, pyTruthy]

/-- Witness for C3: a concrete run that exits 0 with stderr "warn" is
reported as return code 1 and not a success. -/
theorem stderr_overrides_success_witness :
    (⟨1, some "warn", none⟩ : VeilResult).return_code = 1 ∧
    (⟨1, some "warn", none⟩ : VeilResult).error_msg = some "warn" ∧
    (⟨1, some "warn", none⟩ : VeilResult).success = false :=
  stderr_overrides_success cfgEx cfgEx.user_add_cmd ["-u", "bob"] (some false)
    (some false) "out" "warn" ⟨1, some "warn", none⟩ (by decide) (by decide)

/-- C4: a timed-out execution is reported as return code 1 with both text
fields empty (hence not a success), and a timeout that reached the spawn
never surfaces as a raised exception — the run still returns the
normalized result. -/
theorem timeout_normalization (c : VeilCfg) (cmd : String) (cmdArgs : List String)
    (so asA : Option Bool) (pid : Nat) :
    (∀ r, (runCmd c cmd cmdArgs so asA (.timeout pid)).outcome = .ok r →
      r.return_code = 1 ∧ r.error_msg = none ∧ r.stdout_msg = none ∧ r.success = false)
    ∧ ((runCmd c cmd cmdArgs so asA (.timeout pid)).spawns ≠ [] →
      (runCmd c cmd cmdArgs so asA (.timeout pid)).outcome = .ok ⟨1, none, none⟩) := by
  constructor
  · intro r hok
    have h := runCmd_timeout_ok c cmd cmdArgs so asA pid r hok
    subst h
    exact ⟨rfl, rfl, rfl, by simp [VeilResult.success, pyTruthy]⟩
  · intro hne
    rcases runCmd_shape c cmd cmdArgs so asA (.timeout pid) with ⟨e, heq⟩ | ⟨sr, kills, r, heq⟩
    · rw [heq] at hne; simp at hne
    · have hr : r = ⟨1, none, none⟩ :=
        runCmd_timeout_ok c cmd cmdArgs so asA pid r (by rw [heq])
      rw [heq, hr]

/-- Witness for C4: a concrete timed-out run spawned a process and
returned the normalized `(1, None, None)` failure result. -/
theorem timeout_normalization_witness :
    (runCmd cfgEx cfgEx.user_add_cmd ["-u", "bob"] none (some false)
        (.timeout 42)).outcome = .ok ⟨1, none, none⟩ ∧
    (⟨1, none, none⟩ : VeilResult).success = false := by
  constructor
  · exact (timeout_normalization cfgEx cfgEx.user_add_cmd ["-u", "bob"] none
      (some false) 42).2 (by decide)
  · exact ((timeout_normalization cfgEx cfgEx.user_add_cmd ["-u", "bob"] none
      (some false) 42).1 ⟨1, none, none⟩ (by decide)).2.2.2

/-- C5: `user_create_new` returns the create step's result unchanged when
that step does not succeed; returns `(969, password step's stderr, None)`
when create succeeds and the password step does not; and returns
`(0, None, None)` when both succeed. -/
theorem create_new_partial_failure (c : VeilCfg) (u pw : String)
    (g ge : Option String) (so asA : Option Bool) (pb1 pb2 : ProcBehavior) :
    (∀ ur, (userCreate c u g ge so asA pb1).outcome = .ok ur → ur.success = false →
      (userCreateNew c u pw g ge so asA pb1 pb2).outcome = .ok ur)
    ∧ (∀ ur pr, (userCreate c u g ge so asA pb1).outcome = .ok ur → ur.success = true →
      (userSetPassword c u pw so asA pb2).outcome = .ok pr → pr.success = false →
      (userCreateNew c u pw g ge so asA pb1 pb2).outcome = .ok ⟨969, pr.error_msg, none⟩)
    ∧ (∀ ur pr, (userCreate c u g ge so asA pb1).outcome = .ok ur → ur.success = true →
      (userSetPassword c u pw so asA pb2).outcome = .ok pr → pr.success = true →
      (userCreateNew c u pw g ge so asA pb1 pb2).outcome = .ok ⟨0, none, none⟩) := by
  refine ⟨?_, ?_, ?_⟩
  · intro ur h1 hs
    unfold userCreateNew
    dsimp only
    rw [h1]
    simp [hs]
  · intro ur pr h1 hs h2 hps
    unfold userCreateNew
    dsimp only
    rw [h1]
    simp only [hs, Bool.not_true, Bool.false_eq_true, if_false]
    rw [h2]
    simp [hps]
  · intro ur pr h1 hs h2 hps
    unfold userCreateNew
    dsimp only
    rw [h1]
    simp only [hs, Bool.not_true, Bool.false_eq_true, if_false]
    rw [h2]
    simp [hps]

/-- Witness for C5: with both concrete steps succeeding, the composed
operation reports `(0, None, None)`. -/
theorem create_new_partial_failure_witness :
    (userCreateNew cfgEx "bob" "pw" none none none (some false)
        (.completed 0 "" "") (.completed 0 "" "")).outcome = .ok ⟨0, none, none⟩ :=
  (create_new_partial_failure cfgEx "bob" "pw" none none none (some false)
      (.completed 0 "" "") (.completed 0 "" "")).2.2
    ⟨0, none, none⟩ ⟨0, none, none⟩ (by decide) (by decide) (by decide) (by decide)

/-- An optional-string part is empty exactly when the value is falsy. -/
theorem optStrPart_length (flag : String) (o : Option String) :
    (optStrPart flag o).length = if pyTruthy o then 1 else 0 := by
  cases o with
  | none => rfl
  | some s =>
    cases h : (s != "") <;> simp [optStrPart, pyTruthy, h]

/-- An optional-integer part is empty exactly when the value is falsy. -/
theorem optIntPart_length (flag : String) (o : Option Int) :
    (optIntPart flag o).length = if pyTruthyInt o then 1 else 0 := by
  cases o with
  | none => rfl
  | some n =>
    cases h : (n != 0) <;> simp [optIntPart, pyTruthyInt, h]

/-- A falsy optional string contributes nothing. -/
theorem optStrPart_eq_nil (flag : String) (o : Option String)
    (h : pyTruthy o = false) : optStrPart flag o = [] := by
  cases o with
  | none => rfl
  | some s => simp [pyTruthy] at h; simp [optStrPart, h]

/-- A falsy optional integer contributes nothing. -/
theorem optIntPart_eq_nil (flag : String) (o : Option Int)
    (h : pyTruthyInt o = false) : optIntPart flag o = [] := by
  cases o with
  | none => rfl
  | some n => simp [pyTruthyInt] at h; simp [optIntPart, h]

/-- C6 (the code at the failing input): on oracle completion the mapping
is success → stdout carries the reason, failure → stderr carries the
reason, with the oracle's status code as return code; but on a timeout
while the oracle still shows its initial state (code 0, no reason) the
returned result is `(0, None, None)`, whose `success` is `True` — the
timeout is not forced to a failed-authentication result. -/
theorem authenticate_mapping_and_timeout :
    (∀ st : PamState, userAuthenticate (.completes true st) = ⟨st.code, none, st.reason⟩)
    ∧ (∀ st : PamState, userAuthenticate (.completes false st) = ⟨st.code, st.reason, none⟩)
    ∧ userAuthenticate (.timesOut ⟨0, none⟩) = ⟨0, none, none⟩
    ∧ (userAuthenticate (.timesOut ⟨0, none⟩)).success = true :=
  ⟨fun _ => rfl, fun _ => rfl, rfl, rfl⟩

/-- C7 counterexample: a non-empty argument list whose joined form ends
inside an unterminated quote makes the escaper raise — so it does not fail
only on empty input. -/
theorem escape_fails_on_nonempty_input :
    (["don't"] : List String) ≠ [] ∧
    escapeCommandArgs ["don't"] = .error (.valueError "No closing quotation") := by
  exact ⟨by decide, by decide⟩

/-- C7 amended: for every non-empty argument list the escaper returns
exactly the shell-word tokenization of the tokens joined with one space
(including that tokenizer's failures); the empty list raises; and a single
token carrying unquoted word-boundary characters decomposes into several
distinct tokens. -/
theorem escape_joins_then_splits (cmdArgs : List String) (h : cmdArgs ≠ []) :
    escapeCommandArgs cmdArgs = shlexSplit (String.intercalate " " cmdArgs)
    ∧ escapeCommandArgs [] = .error (.valueError "cmd_args should be not empty")
    ∧ escapeCommandArgs ["user; /bin/rm -rf /home"] =
        .ok ["user;", "/bin/rm", "-rf", "/home"] := by
  refine ⟨?_, rfl, by decide⟩
  unfold escapeCommandArgs
  rw [if_neg h]

/-- Witness for C7's amended theorem at a concrete non-empty list. -/
theorem escape_joins_then_splits_witness :
    escapeCommandArgs ["user; /bin/rm -rf /home"] =
      shlexSplit (String.intercalate " " ["user; /bin/rm -rf /home"]) ∧
    escapeCommandArgs [] = .error (.valueError "cmd_args should be not empty") ∧
    escapeCommandArgs ["user; /bin/rm -rf /home"] =
      .ok ["user;", "/bin/rm", "-rf", "/home"] :=
  escape_joins_then_splits ["user; /bin/rm -rf /home"] (by decide)

/-- C8 counterexample: `inactive_period = 0` is present and correctly
typed, yet no `-f` pair is appended — the argument list stays at
`['-u', username]` and the call fails fast instead of spawning. -/
theorem edit_zero_inactive_not_appended :
    userEditArgs "alice" none false false none none (some 0) = ["-u", "alice"] ∧
    userEdit cfgEx "alice" none false false none none (some 0) none (some false)
        (.completed 0 "" "") =
      ⟨[], .error (.valueError "No new arguments.")⟩ := by
  exact ⟨by decide, by decide⟩

/-- C8 amended: each optional attribute of `_user_edit` appends its fixed
flag+value pair exactly when the attribute is truthy (a non-empty string,
`True`, or a non-zero integer): the argument list grows beyond the two
base elements iff some attribute is truthy, every truthy attribute's pair
is in the list, and when no attribute is truthy the call fails fast with
`ValueError` before any process is spawned. -/
theorem edit_args_construction (c : VeilCfg) (u : String) (ga : Option String)
    (l ul : Bool) (ge ed : Option String) (ip : Option Int)
    (so asA : Option Bool) (pb : ProcBehavior) :
    ((pyTruthy ga || l || ul || pyTruthy ge || pyTruthy ed || pyTruthyInt ip) = true
      ↔ 2 < (userEditArgs u ga l ul ge ed ip).length)
    ∧ ((pyTruthy ga || l || ul || pyTruthy ge || pyTruthy ed || pyTruthyInt ip) = false →
        userEdit c u ga l ul ge ed ip so asA pb =
          ⟨[], .error (.valueError "No new arguments.")⟩)
    ∧ (∀ s, ga = some s → s ≠ "" → ("-a " ++ s) ∈ userEditArgs u ga l ul ge ed ip)
    ∧ (l = true → "-L" ∈ userEditArgs u ga l ul ge ed ip)
    ∧ (ul = true → "-U" ∈ userEditArgs u ga l ul ge ed ip)
    ∧ (∀ s, ge = some s → s ≠ "" → ("-c " ++ s) ∈ userEditArgs u ga l ul ge ed ip)
    ∧ (∀ s, ed = some s → s ≠ "" → ("-e " ++ s) ∈ userEditArgs u ga l ul ge ed ip)
    ∧ (∀ n, ip = some n → n ≠ 0 →
        ("-f " ++ toString n) ∈ userEditArgs u ga l ul ge ed ip) := by
  refine ⟨?_, ?_, ?_, ?_, ?_, ?_, ?_, ?_⟩
  · rcases Bool.eq_false_or_eq_true (pyTruthy ga) with hga | hga <;>
      rcases Bool.eq_false_or_eq_true l with hl | hl <;>
      rcases Bool.eq_false_or_eq_true ul with hul | hul <;>
      rcases Bool.eq_false_or_eq_true (pyTruthy ge) with hge | hge <;>
      rcases Bool.eq_false_or_eq_true (pyTruthy ed) with hed | hed <;>
      rcases Bool.eq_false_or_eq_true (pyTruthyInt ip) with hip | hip <;>
      simp [userEditArgs, List.length_append, optStrPart_length, optIntPart_length,
        hga, hl, hul, hge, hed, hip]
  · intro hfalse
    simp only [Bool.or_eq_false_iff] at hfalse
    obtain ⟨⟨⟨⟨⟨hga, hl⟩, hul⟩, hge⟩, hed⟩, hip⟩ := hfalse
    unfold userEdit
    dsimp only
    have hlen : (userEditArgs u ga l ul ge ed ip).length = 2 := by
      simp [userEditArgs, optStrPart_eq_nil _ _ hga, optStrPart_eq_nil _ _ hge,
        optStrPart_eq_nil _ _ hed, optIntPart_eq_nil _ _ hip, hl, hul]
    rw [if_pos (by rw [hlen])]
  · intro s hga hne
    subst hga
    simp [userEditArgs, optStrPart, hne]
  · intro hl
    subst hl
    simp [userEditArgs]
  · intro hul
    subst hul
    simp [userEditArgs]
  · intro s hge hne
    subst hge
    simp [userEditArgs, optStrPart, hne]
  · intro s hed hne
    subst hed
    simp [userEditArgs, optStrPart, hne]
  · intro n hip hne
    subst hip
    simp [userEditArgs, optIntPart, hne]

/-- Witness for C8's amended theorem: a truthy `group_add` pair is present
in the built arguments, and an all-falsy call fails fast. -/
theorem edit_args_construction_witness :
    ("-a wheel" ∈ userEditArgs "alice" (some "wheel") false false none none none) ∧
    userEdit cfgEx "alice" none false false none none none none (some false)
        (.completed 0 "" "") =
      ⟨[], .error (.valueError "No new arguments.")⟩ := by
  constructor
  · exact (edit_args_construction cfgEx "alice" (some "wheel") false false none none none
      none (some false) (.completed 0 "" "")).2.2.1 "wheel" rfl (by decide)
  · exact (edit_args_construction cfgEx "alice" none false false none none none
      none (some false) (.completed 0 "" "")).2.1 (by decide)

/-- C9: `success` holds exactly when the return code is 0 and the error
text is absent or empty; in this functional model the result's fields are
immutable by construction. -/
theorem success_iff_code_zero_and_no_error (r : VeilResult) :
    r.success = true ↔
      (r.return_code = 0 ∧ (r.error_msg = none ∨ r.error_msg = some "")) := by
  obtain ⟨rc, em, sm⟩ := r
  cases em with
  | none => simp [VeilResult.success, pyTruthy]
  | some s =>
    simp only [VeilResult.success, pyTruthy, Bool.and_eq_true, beq_iff_eq,
      Bool.not_eq_true', bne_eq_false_iff_eq]
    constructor
    · rintro ⟨h0, hs⟩
      exact ⟨h0, Or.inr (by rw [hs])⟩
    · rintro ⟨h0, hs | hs⟩
      · exact absurd hs (by simp)
      · exact ⟨h0, (Option.some.inj hs)⟩

/-- C10: `user_in_group` returns `True` exactly when the check run
succeeds with a stored stdout whose stripped text differs from "0",
returns `False` when the run does not succeed — but a successful run with
empty captured stdout stores `None` as stdout text, and the membership
test then raises `AttributeError` instead of returning a boolean. -/
theorem user_in_group_none_stdout_raises (c : VeilCfg) (u g : String)
    (asA : Option Bool) (pb : ProcBehavior) :
    (∀ r s, (runCmd c c.user_check_in_group_cmd ["-u", u, "-g", g]
        (some true) asA pb).outcome = .ok r →
      r.success = true → r.stdout_msg = some s →
      (userInGroup c u g asA pb).outcome = .ok (pyStrip s != "0"))
    ∧ (∀ r, (runCmd c c.user_check_in_group_cmd ["-u", u, "-g", g]
        (some true) asA pb).outcome = .ok r →
      r.success = false → (userInGroup c u g asA pb).outcome = .ok false)
    ∧ (∀ r, (runCmd c c.user_check_in_group_cmd ["-u", u, "-g", g]
        (some true) asA pb).outcome = .ok r →
      r.success = true → r.stdout_msg = none →
      (userInGroup c u g asA pb).outcome =
        .error (.attributeError "NoneType object has no attribute strip"))
    ∧ (∀ rc errD r, (runCmd c c.user_check_in_group_cmd ["-u", u, "-g", g]
        (some true) asA (.completed rc "" errD)).outcome = .ok r →
      r.stdout_msg = none) := by
  refine ⟨?_, ?_, ?_, ?_⟩
  · intro r s hok hs hsm
    unfold userInGroup
    dsimp only
    rw [hok]
    simp [hs, hsm]
  · intro r hok hs
    unfold userInGroup
    dsimp only
    rw [hok]
    simp [hs]
  · intro r hok hs hsm
    unfold userInGroup
    dsimp only
    rw [hok]
    simp [hs, hsm]
  · intro rc errD r hok
    have h := runCmd_completed_ok c _ _ (some true) asA rc "" errD r hok
    subst h
    simp

/-- Witness for C10: a concrete check run that succeeds with empty
captured stdout makes `user_in_group` raise `AttributeError`; one with
stdout "2" returns `True`. -/
theorem user_in_group_none_stdout_raises_witness :
    (userInGroup cfgEx "bob" "wheel" (some false) (.completed 0 "" "")).outcome =
      .error (.attributeError "NoneType object has no attribute strip") ∧
    (userInGroup cfgEx "bob" "wheel" (some false) (.completed 0 "2" "")).outcome =
      .ok true := by
  constructor
  · exact (user_in_group_none_stdout_raises cfgEx "bob" "wheel" (some false)
      (.completed 0 "" "")).2.2.1 ⟨0, none, none⟩ (by decide) (by decide) (by decide)
  · have h := (user_in_group_none_stdout_raises cfgEx "bob" "wheel" (some false)
      (.completed 0 "2" "")).1 ⟨0, none, some "2"⟩ "2" (by decide) (by decide) (by decide)
    rw [(by decide : (pyStrip "2" != "0") = true)] at h
    exact h
